import Mathlib

/-!
Verification development for the PyBuilderApi execution engine
(`src/app/services/python_executor.py`).

The engine runs one submitted Python snippet per request in a child
process (`multiprocessing.Process` running `execute_code_in_process`),
waits for it with a configured timeout, streams the captured stdout and
stderr line by line over a websocket, emits one completion, timeout or
error message, and keeps an `_active_executions` dict from execution id
to the in-flight execution's metadata.

The embedding below mirrors that module definition by definition:
  * `Event` is the vocabulary of JSON messages sent over the websocket;
  * `execute_code_in_process` maps the behaviour of the submitted code
    (normal return with captured output, or a raised exception) to the
    dict placed on the result queue (lines 17-58 of the source);
  * `dictSet` / `dictDelete` / `dictContains` / `dictKeys` / `dictGet`
    model the Python dict operations used on `_active_executions`;
  * `execute_and_stream`, `force_terminate_process`, `stop_execution`
    and `get_active_executions` model the methods of `PythonExecutor`,
    with a `WaitOutcome` argument resolving the scheduling facts the
    code observes (did `process.join` return in time, what did the
    result queue deliver, did an unexpected exception fire);
  * `Coroutine` / `runSchedule` give a small cooperative-interleaving
    semantics used to examine a `stop_execution` call racing an
    in-flight `execute_and_stream` at its genuine await points.
-/

namespace PyExec

/-- The JSON messages `python_executor.py` sends over the websocket
(lines 73, 122, 130, 137, 142, 149 and 180, 189 of the source), keyed by
their `type` field; payload strings keep the source's field contents. -/
inductive Event where
  | execution_start (execution_id msg : String)
  | stdout (content : String)
  | stderr (content : String)
  | execution_complete (msg : String)
  | timeout (execution_id msg : String)
  | error (msg : String)
deriving DecidableEq

/-- A terminal message: `execution_complete`, `timeout` or `error`. -/
def isTerminalEvent : Event → Bool
  | .execution_complete _ => true
  | .timeout _ _ => true
  | .error _ => true
  | _ => false

/-- Recognizer for `execution_start` messages. -/
def isStartEvent : Event → Bool
  | .execution_start _ _ => true
  | _ => false

/-- Recognizer for `stdout` output messages. -/
def isStdoutEvent : Event → Bool
  | .stdout _ => true
  | _ => false

/-- Recognizer for `stderr` output messages. -/
def isStderrEvent : Event → Bool
  | .stderr _ => true
  | _ => false

/-- Recognizer for `execution_complete` messages. -/
def isCompleteEvent : Event → Bool
  | .execution_complete _ => true
  | _ => false

/-- Recognizer for `timeout` messages. -/
def isTimeoutEvent : Event → Bool
  | .timeout _ _ => true
  | _ => false

/-- The dict that `execute_code_in_process` puts on the result queue:
either `{'status': 'success', 'stdout': ..., 'stderr': ..., 'exit_code': 0}`
or `{'status': 'error', 'error': ..., 'exit_code': 1}` (the error dict
carries no stdout or stderr key). -/
inductive ProcResult where
  | success (stdout stderr : String) (exit_code : Nat)
  | error (errMsg : String) (exit_code : Nat)
deriving DecidableEq

/-- Behaviour of the submitted snippet when `exec(code, exec_globals)`
runs it: it either returns normally with the text captured on the
redirected stdout and stderr, or raises an exception (a syntax error is
raised by `exec` at compile time and lands in the same handler). -/
inductive CodeBehavior where
  | runs (stdout stderr : String)
  | raises (excMsg : String)
deriving DecidableEq

/-- Lines 17-58 of the source: run the code, capture output, and put a
success dict on the queue, or catch any exception and put an error dict
with `str(e)` and exit code 1. -/
def execute_code_in_process : CodeBehavior → ProcResult
  | .runs out err => .success out err 0
  | .raises e => .error e 1

/-- Helper for `pySplitlines`: accumulate the current line (reversed) and
split at each line boundary. -/
def splitlinesChars : List Char → List Char → List String
  | acc, [] => if acc.isEmpty then [] else [String.mk acc.reverse]
  | acc, '\r' :: '\n' :: rest => String.mk acc.reverse :: splitlinesChars [] rest
  | acc, '\r' :: rest => String.mk acc.reverse :: splitlinesChars [] rest
  | acc, '\n' :: rest => String.mk acc.reverse :: splitlinesChars [] rest
  | acc, c :: rest => splitlinesChars (c :: acc) rest

/-- Python `str.splitlines()` restricted to the boundaries `\n`, `\r` and
`\r\n` (the ones that occur in captured stdout and stderr text): splits at
each boundary and produces no final empty line for a trailing boundary. -/
def pySplitlines (s : String) : List String :=
  splitlinesChars [] s.toList

/-- A line is blank when `line.strip()` is falsy, i.e. every character is
whitespace (the empty line included). -/
def isBlank (line : String) : Bool :=
  line.toList.all Char.isWhitespace

/-- The lines of a captured text block that the streaming loop forwards:
`splitlines()` filtered by `if line.strip():` (lines 120-121, 128-129). -/
def nonBlankLines (text : String) : List String :=
  (pySplitlines text).filter (fun l => !(isBlank l))

/-- Lines 118-133 of the source: stream every non-blank captured stdout
line as a `stdout` message, then every non-blank captured stderr line as
a `stderr` message. An error dict has no `stdout`/`stderr` key, so
`result.get` is falsy and nothing is streamed. -/
def outputEvents : ProcResult → List Event
  | .success out err _ => (nonBlankLines out).map Event.stdout
      ++ (nonBlankLines err).map Event.stderr
  | .error _ _ => []

/-- Lines 136-145 of the source: the message closing a run whose process
finished and whose result was read: `execution_complete` on a success
dict, `error` on an error dict. -/
def completionEvent : ProcResult → Event
  | .success _ _ ec => .execution_complete ("Execution completed with exit code: " ++ toString ec)
  | .error e _ => .error ("Execution failed: " ++ e)

/-- Python dict assignment `d[k] = v` on an association list kept in
insertion order: overwrite in place if the key is present, else append. -/
def dictSet {α : Type} (d : List (String × α)) (k : String) (v : α) : List (String × α) :=
  if d.any (fun p => p.1 == k) then
    d.map (fun p => if p.1 == k then (k, v) else p)
  else d ++ [(k, v)]

/-- Python `k in d`. -/
def dictContains {α : Type} (d : List (String × α)) (k : String) : Bool :=
  d.any (fun p => p.1 == k)

/-- Python `del d[k]` (a no-op here when the key is absent; the source
always guards the delete with a membership test). -/
def dictDelete {α : Type} (d : List (String × α)) (k : String) : List (String × α) :=
  d.filter (fun p => !(p.1 == k))

/-- Python `list(d.keys())`. -/
def dictKeys {α : Type} (d : List (String × α)) : List String :=
  d.map Prod.fst

/-- Python `d[k]` as an option. -/
def dictGet {α : Type} (d : List (String × α)) (k : String) : Option α :=
  (d.find? (fun p => p.1 == k)).map Prod.snd

/-- Line 69 of the source: the execution id is built from the millisecond
clock reading and the process id alone,
`f"exec_{int(time.time() * 1000)}_{os.getpid()}"` — the submission itself
contributes nothing to the id. -/
def makeExecutionId (unixMillis pid : Nat) : String :=
  "exec_" ++ toString unixMillis ++ "_" ++ toString pid

/-- Lines 61-63 of the source: `self.timeout = timeout or
int(os.getenv("PYTHON_EXECUTION_TIMEOUT", 30))`. A Python int is falsy
exactly when it is 0 and `None` is falsy, so 0 and `None` fall back to
the environment value while every other int — negative ints included —
is kept as given. -/
def pythonExecutorTimeout (timeout : Option Int) (envFallback : Int) : Int :=
  match timeout with
  | none => envFallback
  | some t => if t = 0 then envFallback else t

/-- Line 73-77 of the source: the message opening every run. -/
def startEvent (execution_id : String) : Event :=
  .execution_start execution_id "Starting Python execution..."

/-- Line 183 of the source: the text of the timeout message; it embeds
the configured timeout value. -/
def timeoutMessage (tmo : Int) : String :=
  "Execution timed out after " ++ toString tmo ++ " seconds. Did you check for infinite loops?"

/-- The process-management calls made while terminating: `process.terminate()`
(graceful) and `process.kill()` (hard). -/
inductive TermAction where
  | terminate
  | kill
deriving DecidableEq

/-- Result of a `_force_terminate_process` call: the registry afterwards,
the messages sent, and the process-management calls made in order. -/
structure TerminationRun where
  registryAfter : List (String × Nat)
  events : List Event
  actions : List TermAction
deriving DecidableEq

/-- Lines 159-197 of the source, `PythonExecutor._force_terminate_process`:
return silently when the id is not registered; otherwise `terminate()`,
`join(timeout=2)`, then `kill()` and `join(timeout=1)` if the process is
still alive after the grace join, then send the `timeout` message.
`aliveAfterGrace` is the value `process.is_alive()` returns after the
2-second grace join. `termFault` is the exception, if any, raised inside
the try block (lines 168-184); it is caught and replaced by an `error`
message, and the attempted process calls before the fault are not
tracked. The `finally` clause always deletes the registry entry. -/
def force_terminate_process (registry : List (String × Nat)) (execution_id : String)
    (tmo : Int) (aliveAfterGrace : Bool) (termFault : Option String) : TerminationRun :=
  if dictContains registry execution_id then
    match termFault with
    | none =>
        { registryAfter := dictDelete registry execution_id
          events := [Event.timeout execution_id (timeoutMessage tmo)]
          actions := TermAction.terminate :: (if aliveAfterGrace then [TermAction.kill] else []) }
    | some msg =>
        { registryAfter := dictDelete registry execution_id
          events := [Event.error ("Error terminating execution: " ++ msg)]
          actions := [] }
  else
    { registryAfter := registry, events := [], actions := [] }

/-- Result of a `stop_execution` call. -/
structure StopRun where
  retval : Bool
  registryAfter : List (String × Nat)
  events : List Event
  actions : List TermAction
deriving DecidableEq

/-- Lines 199-205 of the source, `PythonExecutor.stop_execution`: return
`False` untouched when the id is not registered, else run
`_force_terminate_process` and return `True`. -/
def stop_execution (registry : List (String × Nat)) (execution_id : String)
    (tmo : Int) (aliveAfterGrace : Bool) (termFault : Option String) : StopRun :=
  if dictContains registry execution_id then
    let t := force_terminate_process registry execution_id tmo aliveAfterGrace termFault
    { retval := true, registryAfter := t.registryAfter, events := t.events, actions := t.actions }
  else
    { retval := false, registryAfter := registry, events := [], actions := [] }

/-- Lines 207-209 of the source: `list(self._active_executions.keys())`. -/
def get_active_executions (registry : List (String × Nat)) : List String :=
  dictKeys registry

/-- The scheduling facts one sequential `execute_and_stream` run observes:
  * `finished queued`: `process.join(timeout=self.timeout)` returned and
    `process.is_alive()` is false; `queued` is what `result_queue.get`
    delivered (`none` when it raised, which the code replaces by a
    fabricated error dict, lines 108-116);
  * `stillAlive aliveAfterGrace termFault`: the join timed out and the
    process is still alive, so `_force_terminate_process` runs with the
    given liveness-after-grace and fault facts;
  * `engineFault excMsg`: an unexpected exception fired inside the try
    block after the registration (e.g. a failed websocket send), caught
    by the handler at lines 147-152. -/
inductive WaitOutcome where
  | finished (queued : Option ProcResult)
  | stillAlive (aliveAfterGrace : Bool) (termFault : Option String)
  | engineFault (excMsg : String)

/-- Result of one sequential `execute_and_stream` run: the messages sent
in order, the registry as it stands between the registration (line 89)
and the wait, the registry after the run, and the process-management
calls made. -/
structure ExecRun where
  events : List Event
  registryDuringWait : List (String × Nat)
  registryAfter : List (String × Nat)
  actions : List TermAction
deriving DecidableEq

/-- Lines 65-157 of the source, `PythonExecutor.execute_and_stream`, run
sequentially (no interleaved coroutine): send the start message, register
the execution (line 89), start and join the process, then
  * on timeout escalate through `_force_terminate_process` and return;
  * on completion read the queue (fabricating an error dict if the read
    fails), stream the captured output, and send the completion or error
    message;
  * on an unexpected fault send the error message of lines 149-152.
The `finally` clause (lines 154-157) deletes the registry entry whenever
it is still present. -/
def execute_and_stream (registry : List (String × Nat)) (execution_id : String)
    (procHandle : Nat) (tmo : Int) (outcome : WaitOutcome) : ExecRun :=
  let reg1 := dictSet registry execution_id procHandle
  match outcome with
  | .stillAlive alive fault =>
      let t := force_terminate_process reg1 execution_id tmo alive fault
      { events := startEvent execution_id :: t.events
        registryDuringWait := reg1
        registryAfter := dictDelete t.registryAfter execution_id
        actions := t.actions }
  | .finished queued =>
      let result := queued.getD (.error "Failed to get execution result" 1)
      { events := startEvent execution_id :: (outputEvents result ++ [completionEvent result])
        registryDuringWait := reg1
        registryAfter := dictDelete reg1 execution_id
        actions := [] }
  | .engineFault msg =>
      { events := [startEvent execution_id,
          Event.error ("Execution error occurred: " ++ msg ++ ". Please check your code syntax and try again.")]
        registryDuringWait := reg1
        registryAfter := dictDelete reg1 execution_id
        actions := [] }

/-! ### Cooperative interleaving semantics

`execute_and_stream` and `stop_execution` are asyncio coroutines sharing
one event loop and one `_active_executions` dict. A coroutine yields to
the loop only at its `await websocket.send_text(...)` points; everything
between two sends (registration, `process.start`, the synchronous joins,
the queue read, the membership tests) runs without interruption. The
model below makes each such atomic block one step and lets an explicit
schedule choose which coroutine steps next. -/

/-- Shared state of the event loop: the `_active_executions` dict, the
sequence of messages the websocket has carried so far, and the value
`stop_execution` returned if it has finished. -/
structure ConcState where
  registry : List (String × Nat)
  events : List Event
  stopRetval : Option Bool

/-- A coroutine as its remaining atomic blocks: each `act` runs one block
(up to and including its websocket send) and then yields; a `branch`
reads the shared state and continues into the chosen side within the
same step. -/
inductive Coroutine where
  | halt
  | act (block : ConcState → ConcState) (rest : Coroutine)
  | branch (cond : ConcState → Bool) (thn els : Coroutine)

/-- Run one scheduled step of a coroutine. -/
def coroutineStep : Coroutine → ConcState → Coroutine × ConcState
  | .halt, s => (.halt, s)
  | .act f rest, s => (rest, f s)
  | .branch c thn els, s =>
      if c s then coroutineStep thn s else coroutineStep els s

/-- Cooperative scheduler over two coroutines: `true` steps the first,
`false` the second. -/
def runSchedule : List Bool → Coroutine → Coroutine → ConcState → ConcState
  | [], _, _, s => s
  | true :: rest, p, q, s =>
      let r := coroutineStep p s
      runSchedule rest r.1 q r.2
  | false :: rest, p, q, s =>
      let r := coroutineStep q s
      runSchedule rest p r.1 r.2

/-- Send one message on the websocket. -/
def emitStep (e : Event) (s : ConcState) : ConcState :=
  { s with events := s.events ++ [e] }

/-- Line 89: `self._active_executions[execution_id] = {...}`. -/
def registerStep (execution_id : String) (procHandle : Nat) (s : ConcState) : ConcState :=
  { s with registry := dictSet s.registry execution_id procHandle }

/-- Lines 156-157 and 196-197: delete the registry entry if present. -/
def deregStep (execution_id : String) (s : ConcState) : ConcState :=
  { s with registry := dictDelete s.registry execution_id }

/-- Record the boolean `stop_execution` returns. -/
def setRetvalStep (b : Bool) (s : ConcState) : ConcState :=
  { s with stopRetval := some b }

/-- A straight run of sends, one yield after each. -/
def emitSeq : List Event → Coroutine → Coroutine
  | [], rest => rest
  | e :: es, rest => .act (emitStep e) (emitSeq es rest)

/-- The blocks of `execute_and_stream` after the start message, for a
process that finishes in time with queue result `evs` pending to send:
the registration, `process.start`, `process.join` and the queue read all
run between the start send and the next send, so they share the block of
the first following send; each later send is its own block; the
`finally` delete runs when the coroutine resumes after its last send. -/
def execAfterStart (execution_id : String) (procHandle : Nat) : List Event → Coroutine
  | [] => .act (deregStep execution_id) .halt
  | e :: es =>
      .act (fun s => emitStep e (registerStep execution_id procHandle s))
        (emitSeq es (.act (deregStep execution_id) .halt))

/-- `execute_and_stream` as a coroutine, for a submission whose process
finishes in time and whose result is read from the queue: the start send
is the first block; then `execAfterStart` (there is always at least one
later send — the completion or error message — so the registration block
is never the empty case). -/
def execCoroutine (execution_id : String) (procHandle : Nat) (result : ProcResult) : Coroutine :=
  .act (emitStep (startEvent execution_id))
    (execAfterStart execution_id procHandle (outputEvents result ++ [completionEvent result]))

/-- `stop_execution` as a coroutine (fault-free termination): the
membership test, `terminate()` and the grace joins run synchronously,
then the `timeout` send yields; the `finally` delete and the `return
True` run when it resumes. On an absent id it returns `False` within one
step and sends nothing. -/
def stopCoroutine (execution_id : String) (tmo : Int) : Coroutine :=
  .branch (fun s => dictContains s.registry execution_id)
    (.act (emitStep (Event.timeout execution_id (timeoutMessage tmo)))
      (.act (fun s => setRetvalStep true (deregStep execution_id s)) .halt))
    (.act (setRetvalStep false) .halt)

/-! ### Registry lemmas -/

/-- After `d[k] = v` the key `k` is in the dict. -/
theorem dictContains_dictSet_self {α : Type} (d : List (String × α)) (k : String) (v : α) :
    dictContains (dictSet d k v) k = true := by
  unfold dictContains dictSet
  by_cases h : d.any (fun p => p.1 == k) = true
  · rw [if_pos h]
    rcases List.any_eq_true.mp h with ⟨p, hp, hbeq⟩
    exact List.any_eq_true.mpr ⟨(k, v), List.mem_map.mpr ⟨p, hp, by simp [hbeq]⟩, by simp⟩
  · rw [if_neg h]
    exact List.any_eq_true.mpr ⟨(k, v), by simp, by simp⟩

/-- After `del d[k]` the key `k` is gone. -/
theorem dictContains_dictDelete_self {α : Type} (d : List (String × α)) (k : String) :
    dictContains (dictDelete d k) k = false := by
  unfold dictContains dictDelete
  rw [Bool.eq_false_iff]
  intro hcon
  rcases List.any_eq_true.mp hcon with ⟨p, hp, hbeq⟩
  have hkeep := (List.mem_filter.mp hp).2
  rw [hbeq] at hkeep
  simp at hkeep

/-! ### Claim C1: a concrete interleaving of a concurrent stop -/

/-- The id both coroutines in the C1 scenario use. -/
def c1ExecutionId : String := makeExecutionId 1727000000000 1234

/-- The C1 scenario's queue result: the submitted code printed two lines
and returned. -/
def c1Result : ProcResult := execute_code_in_process (.runs "line one\nline two\n" "")

/-- The C1 scenario's schedule: the executing coroutine sends the start
message and the first stdout line, then yields at that send's await;
`stop_execution` runs to completion (its two blocks); the executing
coroutine then resumes and finishes. Every switch in this schedule sits
at a genuine `await websocket.send_text` suspension point of the
source. -/
def c1Schedule : List Bool := [true, true, false, false, true, true, true]

/-- The websocket messages the C1 scenario produces. -/
def c1Trace : List Event :=
  (runSchedule c1Schedule (execCoroutine c1ExecutionId 7 c1Result)
    (stopCoroutine c1ExecutionId 30)
    { registry := [], events := [], stopRetval := none }).events

/-- Claim C1: refuted on the code. When `stop_execution` runs while the
execution is still streaming, the stop path sends a `timeout` message
and the executing coroutine then still streams its remaining output and
sends `execution_complete`: the trace holds two terminal events, the
`timeout` event is not the last event for the id, and output events
follow a terminal event — against the claim that exactly one terminal
event is emitted and that it is last. -/
theorem C1_concurrent_stop_double_terminal :
    c1Trace = [startEvent c1ExecutionId,
      Event.stdout "line one",
      Event.timeout c1ExecutionId (timeoutMessage 30),
      Event.stdout "line two",
      Event.execution_complete "Execution completed with exit code: 0"]
    ∧ (c1Trace.filter isTerminalEvent).length = 2
    ∧ c1Trace.getLast? = some (Event.execution_complete "Execution completed with exit code: 0") := by
  refine ⟨?_, ?_, ?_⟩ <;> decide

/-! ### Claim C2: id generation collides within one millisecond -/

/-- Claim C2: refuted on the code. The id generator reads only the
millisecond clock and the process id, so two submissions admitted in the
same millisecond by the same process receive the identical id, and
registering the second overwrites the first submission's registry entry:
one entry remains and it holds the second submission's process handle. -/
theorem C2_same_millisecond_collision :
    makeExecutionId 1727000000000 1234 = "exec_1727000000000_1234"
    ∧ dictSet (dictSet ([] : List (String × Nat)) (makeExecutionId 1727000000000 1234) 7)
        (makeExecutionId 1727000000000 1234) 8
      = [(makeExecutionId 1727000000000 1234, 8)]
    ∧ dictGet (dictSet (dictSet ([] : List (String × Nat)) (makeExecutionId 1727000000000 1234) 7)
        (makeExecutionId 1727000000000 1234) 8) (makeExecutionId 1727000000000 1234) = some 8 := by
  refine ⟨?_, ?_, ?_⟩ <;> decide

/-! ### Claim C3: a raising submission yields an error event -/

/-- A run whose submitted code raised `ZeroDivisionError`. -/
def c3Run : ExecRun :=
  execute_and_stream [] (makeExecutionId 1727000000003 1234) 7 30
    (.finished (some (execute_code_in_process (.raises "division by zero"))))

/-- Claim C3: refuted on the code at a concrete raising submission. The
child catches the exception and queues an error dict with no stdout or
stderr key, so the engine sends an `error` terminal event, not
`execution_complete`, and streams no stderr line at all. -/
theorem C3_counterexample_error_event :
    c3Run.events = [startEvent (makeExecutionId 1727000000003 1234),
      Event.error "Execution failed: division by zero"]
    ∧ (c3Run.events.filter isCompleteEvent).length = 0
    ∧ (c3Run.events.filter isStderrEvent).length = 0 := by
  refine ⟨?_, ?_, ?_⟩ <;> decide

/-! ### Claim C7: syntactically invalid submission -/

/-- What `exec` raises on the snippet of the claim: running
`exec('print("Hello" + )', ...)` raises a `SyntaxError` whose `str` is
this message, so the child process queues an error dict carrying it. -/
def invalidSnippetMessage : String := "invalid syntax (<string>, line 1)"

/-- The run of the syntactically invalid snippet. -/
def c7Run : ExecRun :=
  execute_and_stream [] (makeExecutionId 1727000000007 1234) 7 30
    (.finished (some (execute_code_in_process (.raises invalidSnippetMessage))))

/-- Claim C7: confirmed. A syntactically invalid submission produces
exactly one `execution_start` message followed by one `error` message
describing the failure, and no `execution_complete` message. -/
theorem C7_invalid_syntax_single_error :
    c7Run.events = [startEvent (makeExecutionId 1727000000007 1234),
      Event.error ("Execution failed: " ++ invalidSnippetMessage)]
    ∧ (c7Run.events.filter isStartEvent).length = 1
    ∧ (c7Run.events.filter isCompleteEvent).length = 0 := by
  refine ⟨?_, ?_, ?_⟩ <;> decide

/-! ### Claim C10: constructor timeout fallback -/

/-- Claim C10: refuted on the code as universally stated. A negative
timeout argument is truthy in Python, so `timeout or fallback` keeps it:
with the positive fallback 30 the constructed timeout is -5, not
strictly positive. (The 0-and-None part of the claim does hold; see the
amended theorem.) -/
theorem C10_counterexample_negative_timeout :
    (0 : Int) < 30 ∧ pythonExecutorTimeout (some (-5)) 30 = -5
    ∧ ¬ (0 < pythonExecutorTimeout (some (-5)) 30) := by
  refine ⟨?_, ?_, ?_⟩ <;> decide

/-! ### Claim C3 (amended): a raising submission, in general -/

/-- Claim C3 as amended: for every submission whose executed code raises
an exception, the engine sends a single terminal event and it is an
`error` event carrying the exception text; no output line is streamed
(the captured stderr is discarded with the rest of the lost capture) and
the engine itself completes the run normally. -/
theorem C3_amended_error_event (registry : List (String × Nat)) (execution_id : String)
    (procHandle : Nat) (tmo : Int) (excMsg : String) :
    (execute_and_stream registry execution_id procHandle tmo
        (.finished (some (execute_code_in_process (.raises excMsg))))).events
      = [startEvent execution_id, Event.error ("Execution failed: " ++ excMsg)]
    ∧ ((execute_and_stream registry execution_id procHandle tmo
        (.finished (some (execute_code_in_process (.raises excMsg))))).events.filter
          isTerminalEvent).length = 1 := by
  constructor
  · simp [execute_and_stream, execute_code_in_process, outputEvents, completionEvent]
  · simp [execute_and_stream, execute_code_in_process, outputEvents, completionEvent,
      List.filter_cons, isTerminalEvent, startEvent]

/-! ### Claim C4: timeout escalation -/

/-- Claim C4: confirmed. When the process is still alive at the deadline
(and termination raises no fault), the engine calls `terminate()` first,
calls `kill()` exactly when the process is still alive after the grace
join, and sends exactly one `timeout` message; that message embeds the
configured timeout value. -/
theorem C4_timeout_two_stage (registry : List (String × Nat)) (execution_id : String)
    (procHandle : Nat) (tmo : Int) (aliveAfterGrace : Bool) :
    (execute_and_stream registry execution_id procHandle tmo
        (.stillAlive aliveAfterGrace none)).events
      = [startEvent execution_id, Event.timeout execution_id (timeoutMessage tmo)]
    ∧ (execute_and_stream registry execution_id procHandle tmo
        (.stillAlive aliveAfterGrace none)).actions
      = TermAction.terminate :: (if aliveAfterGrace then [TermAction.kill] else [])
    ∧ ((execute_and_stream registry execution_id procHandle tmo
        (.stillAlive aliveAfterGrace none)).events.filter isTimeoutEvent).length = 1
    ∧ ∃ pre post : String, timeoutMessage tmo = pre ++ toString tmo ++ post := by
  have hreg := dictContains_dictSet_self registry execution_id procHandle
  refine ⟨?_, ?_, ?_, ?_⟩
  · simp [execute_and_stream, force_terminate_process, hreg]
  · simp [execute_and_stream, force_terminate_process, hreg]
  · simp [execute_and_stream, force_terminate_process, hreg, List.filter_cons,
      isTimeoutEvent, startEvent]
  · exact ⟨"Execution timed out after ", " seconds. Did you check for infinite loops?", rfl⟩

/-! ### Claim C5: stop semantics -/

/-- Claim C5: confirmed. Stopping an unregistered id returns `False`,
sends nothing, makes no process call and leaves the registry alone — so
a second stop on the same id is exactly such a no-op. Stopping a
registered id (with fault-free termination) returns `True`, runs the
terminate-then-kill escalation, sends the `timeout` terminal message and
deregisters the id, after which stopping it again returns `False` and
sends nothing. -/
theorem C5_stop_semantics (registry : List (String × Nat)) (execution_id : String)
    (tmo : Int) (aliveAfterGrace : Bool) :
    (dictContains registry execution_id = false →
      stop_execution registry execution_id tmo aliveAfterGrace none
        = { retval := false, registryAfter := registry, events := [], actions := [] })
    ∧ (dictContains registry execution_id = true →
      (stop_execution registry execution_id tmo aliveAfterGrace none).retval = true
      ∧ (stop_execution registry execution_id tmo aliveAfterGrace none).events
          = [Event.timeout execution_id (timeoutMessage tmo)]
      ∧ (stop_execution registry execution_id tmo aliveAfterGrace none).actions
          = TermAction.terminate :: (if aliveAfterGrace then [TermAction.kill] else [])
      ∧ dictContains
          (stop_execution registry execution_id tmo aliveAfterGrace none).registryAfter
          execution_id = false
      ∧ (stop_execution
          (stop_execution registry execution_id tmo aliveAfterGrace none).registryAfter
          execution_id tmo aliveAfterGrace none).retval = false
      ∧ (stop_execution
          (stop_execution registry execution_id tmo aliveAfterGrace none).registryAfter
          execution_id tmo aliveAfterGrace none).events = []) := by
  constructor
  · intro h
    simp [stop_execution, h]
  · intro h
    have hdel := dictContains_dictDelete_self registry execution_id
    simp [stop_execution, force_terminate_process, h, hdel]

/-- Witness for C5 at a concrete registry: stopping the unknown id in the
empty registry returns `False`, and stopping the registered id
`exec_9_9` returns `True`. -/
theorem C5_stop_semantics_witness :
    (stop_execution [] "exec_9_9" 30 true none).retval = false
    ∧ (stop_execution [("exec_9_9", 7)] "exec_9_9" 30 true none).retval = true := by
  constructor
  · rw [(C5_stop_semantics [] "exec_9_9" 30 true).1 (by decide)]
  · exact ((C5_stop_semantics [("exec_9_9", 7)] "exec_9_9" 30 true).2 (by decide)).1

/-! ### Claim C6: registry lifecycle -/

/-- The last message of a run is terminal. -/
def lastIsTerminal (evs : List Event) : Bool :=
  match evs.getLast? with
  | some e => isTerminalEvent e
  | none => false

/-- The last element of `x :: (l ++ [e])` is `e`. -/
theorem lastIsTerminal_cons_concat (x : Event) (l : List Event) (e : Event) :
    lastIsTerminal (x :: (l ++ [e])) = isTerminalEvent e := by
  unfold lastIsTerminal
  rw [← List.cons_append, List.getLast?_concat]

/-- The completion-or-error message closing a finished run is terminal. -/
theorem isTerminalEvent_completionEvent (r : ProcResult) :
    isTerminalEvent (completionEvent r) = true := by
  cases r <;> rfl

/-- Claim C6: confirmed. On every sequential exit path — success, error
result, lost queue result, timeout (fault-free or faulting termination)
and unexpected engine fault — the execution id is registered between the
registration and the wait, the run ends with a terminal event, and the
id is absent from the registry when the run is over. (The external
cancellation path deregisters likewise; see the stop semantics.) -/
theorem C6_registry_lifecycle (registry : List (String × Nat)) (execution_id : String)
    (procHandle : Nat) (tmo : Int) (outcome : WaitOutcome) :
    dictContains (execute_and_stream registry execution_id procHandle tmo
        outcome).registryDuringWait execution_id = true
    ∧ dictContains (execute_and_stream registry execution_id procHandle tmo
        outcome).registryAfter execution_id = false
    ∧ lastIsTerminal (execute_and_stream registry execution_id procHandle tmo
        outcome).events = true := by
  have hreg := dictContains_dictSet_self registry execution_id procHandle
  cases outcome with
  | finished queued =>
      refine ⟨hreg, ?_, ?_⟩
      · simp [execute_and_stream, dictContains_dictDelete_self]
      · simp only [execute_and_stream]
        rw [lastIsTerminal_cons_concat]
        exact isTerminalEvent_completionEvent _
  | stillAlive alive fault =>
      refine ⟨hreg, ?_, ?_⟩
      · simp [execute_and_stream, dictContains_dictDelete_self]
      · cases fault <;>
          simp [execute_and_stream, force_terminate_process, hreg, lastIsTerminal,
            isTerminalEvent]
  | engineFault msg =>
      refine ⟨hreg, ?_, ?_⟩
      · simp [execute_and_stream, dictContains_dictDelete_self]
      · simp [execute_and_stream, lastIsTerminal, isTerminalEvent]

/-! ### Claims C8 and C9: output streaming -/

/-- Every image of `Event.stdout` passes the stdout filter. -/
theorem filter_isStdout_map_stdout (ls : List String) :
    (ls.map Event.stdout).filter isStdoutEvent = ls.map Event.stdout := by
  induction ls with
  | nil => rfl
  | cons a t ih => simp [List.filter_cons, isStdoutEvent, ih]

/-- No image of `Event.stderr` passes the stdout filter. -/
theorem filter_isStdout_map_stderr (ls : List String) :
    (ls.map Event.stderr).filter isStdoutEvent = [] := by
  induction ls with
  | nil => rfl
  | cons a t ih => simp [List.filter_cons, isStdoutEvent, ih]

/-- Every image of `Event.stderr` passes the stderr filter. -/
theorem filter_isStderr_map_stderr (ls : List String) :
    (ls.map Event.stderr).filter isStderrEvent = ls.map Event.stderr := by
  induction ls with
  | nil => rfl
  | cons a t ih => simp [List.filter_cons, isStderrEvent, ih]

/-- No image of `Event.stdout` passes the stderr filter. -/
theorem filter_isStderr_map_stdout (ls : List String) :
    (ls.map Event.stdout).filter isStderrEvent = [] := by
  induction ls with
  | nil => rfl
  | cons a t ih => simp [List.filter_cons, isStderrEvent, ih]

/-- Claim C8: confirmed. For a run whose code returned normally, the
`stdout` messages of the run are exactly the non-blank lines of the
captured stdout text, in the order they stand in that text, and likewise
for `stderr`: the blank and whitespace-only lines are the discarded
ones. -/
theorem C8_output_stream_events (registry : List (String × Nat)) (execution_id : String)
    (procHandle : Nat) (tmo : Int) (out err : String) :
    (execute_and_stream registry execution_id procHandle tmo
        (.finished (some (execute_code_in_process (.runs out err))))).events.filter
      isStdoutEvent = (nonBlankLines out).map Event.stdout
    ∧ (execute_and_stream registry execution_id procHandle tmo
        (.finished (some (execute_code_in_process (.runs out err))))).events.filter
      isStderrEvent = (nonBlankLines err).map Event.stderr := by
  constructor
  · simp [execute_and_stream, execute_code_in_process, outputEvents, completionEvent,
      List.filter_append, List.filter_cons, filter_isStdout_map_stdout,
      filter_isStdout_map_stderr, isStdoutEvent, startEvent]
  · simp [execute_and_stream, execute_code_in_process, outputEvents, completionEvent,
      List.filter_append, List.filter_cons, filter_isStderr_map_stderr,
      filter_isStderr_map_stdout, isStderrEvent, startEvent]

/-- The full message list of a run whose code returned normally. -/
def successRunEvents (registry : List (String × Nat)) (execution_id : String)
    (procHandle : Nat) (tmo : Int) (out err : String) : List Event :=
  (execute_and_stream registry execution_id procHandle tmo
    (.finished (some (execute_code_in_process (.runs out err))))).events

/-- A successful run's messages, regrouped around the stdout block. -/
theorem successRunEvents_eq (registry : List (String × Nat)) (execution_id : String)
    (procHandle : Nat) (tmo : Int) (out err : String) :
    successRunEvents registry execution_id procHandle tmo out err
      = (startEvent execution_id :: (nonBlankLines out).map Event.stdout)
        ++ ((nonBlankLines err).map Event.stderr
            ++ [Event.execution_complete "Execution completed with exit code: 0"]) := by
  simp [successRunEvents, execute_and_stream, execute_code_in_process, outputEvents,
    completionEvent]
  decide

/-- A position whose element satisfies a predicate false on all of the
right block lies inside the left block. -/
theorem pos_lt_of_false_on_right {p : Event → Bool} (l1 l2 : List Event) (i : Nat)
    (h : i < (l1 ++ l2).length)
    (hall : ∀ e ∈ l2, p e = false)
    (hp : p ((l1 ++ l2).get ⟨i, h⟩) = true) : i < l1.length := by
  by_contra hc
  push_neg at hc
  rw [List.get_eq_getElem, List.getElem_append_right hc] at hp
  have hlt : i - l1.length < l2.length := by
    rw [List.length_append] at h
    exact Nat.sub_lt_left_of_lt_add hc h
  have hmem : l2.get ⟨i - l1.length, hlt⟩ ∈ l2 := List.get_mem _ _ _
  rw [List.get_eq_getElem] at hmem
  rw [hall _ hmem] at hp
  cases hp

/-- A position whose element satisfies a predicate false on all of the
left block lies inside the right block. -/
theorem pos_ge_of_false_on_left {p : Event → Bool} (l1 l2 : List Event) (i : Nat)
    (h : i < (l1 ++ l2).length)
    (hall : ∀ e ∈ l1, p e = false)
    (hp : p ((l1 ++ l2).get ⟨i, h⟩) = true) : l1.length ≤ i := by
  by_contra hc
  push_neg at hc
  rw [List.get_eq_getElem, List.getElem_append_left hc] at hp
  have hmem : l1.get ⟨i, hc⟩ ∈ l1 := List.get_mem _ _ _
  rw [List.get_eq_getElem] at hmem
  rw [hall _ hmem] at hp
  cases hp

/-- In a list of the shape `(s :: stdout block) ++ (stderr block ++ [c])`
with `s` and `c` neither stdout nor stderr, every stdout position comes
before every stderr position. -/
theorem stdout_pos_lt_stderr_pos (l : List Event) (s : Event) (A B : List String) (c : Event)
    (hl : l = (s :: A.map Event.stdout) ++ (B.map Event.stderr ++ [c]))
    (hs : isStderrEvent s = false)
    (hco : isStdoutEvent c = false)
    (i j : Nat) (hi : i < l.length) (hj : j < l.length)
    (hsi : isStdoutEvent (l.get ⟨i, hi⟩) = true)
    (hsj : isStderrEvent (l.get ⟨j, hj⟩) = true) : i < j := by
  subst hl
  have hallR : ∀ e ∈ B.map Event.stderr ++ [c], isStdoutEvent e = false := by
    intro e he
    rcases List.mem_append.mp he with h1 | h2
    · rcases List.mem_map.mp h1 with ⟨b, _, rfl⟩
      rfl
    · rw [List.mem_singleton.mp h2]
      exact hco
  have hallL : ∀ e ∈ s :: A.map Event.stdout, isStderrEvent e = false := by
    intro e he
    rcases List.mem_cons.mp he with h1 | h2
    · rw [h1]; exact hs
    · rcases List.mem_map.mp h2 with ⟨a, _, rfl⟩
      rfl
  have h1 := pos_lt_of_false_on_right _ _ i hi hallR hsi
  have h2 := pos_ge_of_false_on_left _ _ j hj hallL hsj
  exact Nat.lt_of_lt_of_le h1 h2

/-- Claim C9: confirmed. In a run whose code returned normally, every
`stdout` message is sent before every `stderr` message: the code streams
the whole buffered stdout block first and the whole stderr block second,
although the spec promises no cross-stream order. -/
theorem C9_stdout_before_stderr (registry : List (String × Nat)) (execution_id : String)
    (procHandle : Nat) (tmo : Int) (out err : String) (i j : Nat)
    (hi : i < (successRunEvents registry execution_id procHandle tmo out err).length)
    (hj : j < (successRunEvents registry execution_id procHandle tmo out err).length)
    (hsi : isStdoutEvent ((successRunEvents registry execution_id procHandle tmo
        out err).get ⟨i, hi⟩) = true)
    (hsj : isStderrEvent ((successRunEvents registry execution_id procHandle tmo
        out err).get ⟨j, hj⟩) = true) : i < j :=
  stdout_pos_lt_stderr_pos _ (startEvent execution_id) (nonBlankLines out)
    (nonBlankLines err) (Event.execution_complete "Execution completed with exit code: 0")
    (successRunEvents_eq registry execution_id procHandle tmo out err)
    rfl rfl i j hi hj hsi hsj

/-- Witness for C9: in the run with stdout text `a` and stderr text `b`,
position 1 holds the stdout message, position 2 the stderr message, and
the theorem places 1 before 2. -/
theorem C9_stdout_before_stderr_witness :
    isStdoutEvent ((successRunEvents [] "exec_9_8" 7 30 "a" "b").get ⟨1, by decide⟩) = true
    ∧ isStderrEvent ((successRunEvents [] "exec_9_8" 7 30 "a" "b").get ⟨2, by decide⟩) = true
    ∧ 1 < 2 :=
  ⟨by decide, by decide,
    C9_stdout_before_stderr [] "exec_9_8" 7 30 "a" "b" 1 2 (by decide) (by decide)
      (by decide) (by decide)⟩

/-! ### Claim C10 (amended): constructor timeout -/

/-- Claim C10 as amended: a timeout argument of 0 (and an absent one)
falls back to the configured environment value, and the constructed
timeout is strictly positive whenever that fallback is positive and the
explicit argument, when given, is nonnegative; a negative argument is
kept as given. -/
theorem C10_amended_positive_timeout (t : Option Int) (fb : Int) (hfb : 0 < fb)
    (ht : ∀ k, t = some k → 0 ≤ k) :
    pythonExecutorTimeout none fb = fb
    ∧ pythonExecutorTimeout (some 0) fb = fb
    ∧ 0 < pythonExecutorTimeout t fb := by
  refine ⟨rfl, by simp [pythonExecutorTimeout], ?_⟩
  cases t with
  | none => exact hfb
  | some k =>
      have hk := ht k rfl
      simp only [pythonExecutorTimeout]
      by_cases h0 : k = 0
      · rw [if_pos h0]; exact hfb
      · rw [if_neg h0]
        omega

/-- Witness for C10: with fallback 30 and the nonnegative argument 5 the
constructed timeout is positive. -/
theorem C10_amended_positive_timeout_witness :
    (0 : Int) < 30 ∧ 0 < pythonExecutorTimeout (some 5) 30 :=
  ⟨by decide,
    (C10_amended_positive_timeout (some 5) 30 (by decide)
      (fun k hk => by injection hk with h; omega)).2.2⟩

end PyExec
